import Mathlib

/-!
Shallow embedding of the deadtext survival-game engine
(src/config.py, src/game_state.py, src/database.py, src/game_logic.py).

Conventions of the embedding:
* Python numbers that can become floats through arithmetic
  (health, food, water, depletion rates, random damage draws) are
  modelled as `ℚ`; Python's float arithmetic on these values is exact
  decimal arithmetic in the reachable range, so `ℚ` is faithful.
* SQLite tables are association lists keyed by their primary key;
  `INSERT OR REPLACE` is an in-place update (`upsertKey`).
* Timestamps (`last_updated`, `last_reset`, `datetime.utcnow()`) are
  abstract instants `Nat`; `now.replace(hour=RESET_HOUR,minute=0,...)`
  (start of the current rate-limit window) is passed as a separate
  instant `windowStart` with `windowStart ≤ now` in the real system.
* Randomness (`random.random()`, `random.randint`, `random.choice`)
  and the narrative-oracle results of `scenario_generator` are passed
  in explicitly through a `TurnEnv` record; `randint(a,b)` draws are
  arbitrary rationals constrained by hypotheses `a ≤ x ≤ b` where a
  theorem needs the bound.
* A Python exception raised by an awaited oracle call inside the
  `try` block of `GameLogic.process_turn` is modelled by the Boolean
  failure flags of `TurnEnv`; the `except` branch (line 216) is the
  corresponding alternative in `tryBlock`.
-/

namespace DeadText

/-- src/config.py: `GameConfig.MAX_MESSAGES_PER_DAY`. -/
def MAX_MESSAGES_PER_DAY : Int := 50

/-- src/config.py: `GameConfig.DAYS_TO_WIN`. -/
def DAYS_TO_WIN : Int := 30

/-- src/config.py: `GameConfig.MAX_HEALTH`. -/
def MAX_HEALTH : ℚ := 100

/-- src/config.py: `GameConfig.REST_RECOVERY`. -/
def REST_RECOVERY : ℚ := 15

/-- One entry of src/config.py `GameConfig.DIFFICULTY_LEVELS`. -/
structure DifficultyProfile where
  initial_health : ℚ
  initial_food : ℚ
  initial_water : ℚ
  initial_weapons : List String
  zombie_damage : ℚ
  resource_depletion_rate : ℚ
deriving DecidableEq

/-- src/config.py: `GameConfig.DIFFICULTY_LEVELS` as a keyed lookup;
`none` models the `KeyError` a Python dict raises on an unknown tier. -/
def DIFFICULTY_LEVELS (d : String) : Option DifficultyProfile :=
  if d = "easy" then
    some ⟨100, 10, 10, ["Baseball Bat"], 10, 1/2⟩
  else if d = "normal" then
    some ⟨80, 7, 7, ["Knife"], 15, 1⟩
  else if d = "hard" then
    some ⟨60, 5, 5, ["Fists"], 20, 3/2⟩
  else none

/-- src/game_state.py: dataclass `PlayerState`. `inventory` is the
Python dict item ↦ count as an association list. -/
structure PlayerState where
  chat_id : Int
  username : String
  health : ℚ
  food : ℚ
  water : ℚ
  weapons : List String
  current_day : Int
  difficulty : String
  location : String
  inventory : List (String × Int)
  game_active : Bool
deriving DecidableEq

/-- Association-list lookup by `Int` key (SQL `SELECT ... WHERE chat_id = ?`,
Python `dict[chat_id]`). -/
def lookupKey {α : Type} : List (Int × α) → Int → Option α
  | [], _ => none
  | (k0, v) :: rest, k => if k0 = k then some v else lookupKey rest k

/-- Association-list upsert by `Int` key (SQL `INSERT OR REPLACE` on the
primary key, Python `dict[chat_id] = v`): replaces in place, else appends. -/
def upsertKey {α : Type} : List (Int × α) → Int → α → List (Int × α)
  | [], k, v => [(k, v)]
  | (k0, v0) :: rest, k, v =>
      if k0 = k then (k, v) :: rest else (k0, v0) :: upsertKey rest k v

/-- Row of the `game_history` table (src/database.py lines 64-80).
The `final_state` JSON snapshot and the `timestamp` column are not
consulted by any source path modelled here and are omitted. -/
structure HistoryRecord where
  chat_id : Int
  username : String
  game_id : Int
  result : String
  survived_days : Int
  difficulty : String
  final_location : String
deriving DecidableEq

/-- Row of the `players` table: the serialized session plus the
`last_updated` timestamp maintained by the trigger (src/database.py
lines 82-92). The scalar columns duplicate fields of `state` and are
not modelled separately. -/
structure PlayerRow where
  state : PlayerState
  last_updated : Nat
deriving DecidableEq

/-- Row of the `rate_limits` table (src/database.py lines 44-54). -/
structure RateLimitRow where
  message_count : Int
  last_reset : Nat
deriving DecidableEq

/-- The durable store (src/database.py): the three tables of
`init_database`. -/
structure Database where
  players : List (Int × PlayerRow)
  history : List HistoryRecord
  rate_limits : List (Int × RateLimitRow)
deriving DecidableEq

/-- src/game_state.py: `GameStateManager._save_to_db` — synchronous
upsert of the full session keyed by `chat_id`; the trigger stamps
`last_updated` with the current instant. -/
def save_to_db (db : Database) (p : PlayerState) (now : Nat) : Database :=
  { db with players := upsertKey db.players p.chat_id ⟨p, now⟩ }

/-- src/game_state.py: `GameStateManager` — the durable store plus the
in-memory cache `active_games` keyed by `chat_id`. -/
structure GameStateManager where
  db : Database
  active_games : List (Int × PlayerState)
deriving DecidableEq

/-- src/game_state.py: `GameStateManager._load_active_games` — startup
hydration: `SELECT game_state FROM players WHERE game_active = 1`,
keyed in memory by the deserialized session's `chat_id`. -/
def load_active_games (db : Database) : List (Int × PlayerState) :=
  (db.players.filter (fun r => r.2.state.game_active)).map
    (fun r => (r.2.state.chat_id, r.2.state))

/-- src/game_state.py lines 65-70: the first block of `create_new_game`
— if the player has a cached session, mark it inactive and commit it. -/
def end_existing_game (m : GameStateManager) (chat_id : Int) (now : Nat) :
    GameStateManager :=
  match lookupKey m.active_games chat_id with
  | some old =>
      let old2 := { old with game_active := false }
      { db := save_to_db m.db old2 now,
        active_games := upsertKey m.active_games chat_id old2 }
  | none => m

/-- src/game_state.py: `GameStateManager.create_new_game`. On an unknown
difficulty tier the Python dict lookup raises after the old game was
already ended; that is the `none` second component. -/
def create_new_game (m : GameStateManager) (chat_id : Int)
    (username difficulty : String) (now : Nat) :
    GameStateManager × Option PlayerState :=
  let m1 := end_existing_game m chat_id now
  match DIFFICULTY_LEVELS difficulty with
  | none => (m1, none)
  | some settings =>
      let player : PlayerState :=
        ⟨chat_id, username, settings.initial_health, settings.initial_food,
         settings.initial_water, settings.initial_weapons, 1, difficulty,
         "Safe House", [], true⟩
      ({ db := save_to_db m1.db player now,
         active_games := upsertKey m1.active_games chat_id player },
       some player)

/-- src/game_state.py: `GameStateManager.get_player_state` — memory
first, then the durable store restricted to `game_active = 1`; a cold
hit is cached. Returns the result and the updated manager. -/
def get_player_state (m : GameStateManager) (chat_id : Int) :
    Option PlayerState × GameStateManager :=
  match lookupKey m.active_games chat_id with
  | some p => (some p, m)
  | none =>
      match lookupKey m.db.players chat_id with
      | some row =>
          if row.state.game_active then
            (some row.state,
             { m with active_games :=
                 upsertKey m.active_games chat_id row.state })
          else (none, m)
      | none => (none, m)

/-- src/database.py lines 118-122: next per-player history sequence
number, `COALESCE(MAX(game_id), 0) + 1` over this player's records. -/
def nextGameId (hist : List HistoryRecord) (chat_id : Int) : Int :=
  (hist.foldl (fun acc r => if r.chat_id = chat_id then max acc r.game_id else acc) 0) + 1

/-- Mark one player's row inactive
(`UPDATE players SET game_active = 0 WHERE chat_id = ?`). -/
def markInactive (rows : List (Int × PlayerRow)) (chat_id : Int) :
    List (Int × PlayerRow) :=
  rows.map (fun r =>
    if r.1 = chat_id then
      (r.1, ⟨{ r.2.state with game_active := false }, r.2.last_updated⟩)
    else r)

/-- src/database.py: `Database.cleanup_inactive_games` — rows still
flagged active whose `last_updated` precedes the cutoff instant
(`now - hours`) are appended to `game_history` with result
"Game abandoned due to inactivity" and `survived_days = current_day`,
then flagged inactive. -/
def cleanup_inactive_games (db : Database) (cutoff : Nat) : Database :=
  let stale := db.players.filter
    (fun r => r.2.state.game_active ∧ r.2.last_updated < cutoff)
  stale.foldl (fun d r =>
    let st := r.2.state
    { d with
      history := d.history ++
        [⟨r.1, st.username, nextGameId d.history r.1,
          "Game abandoned due to inactivity", st.current_day,
          st.difficulty, st.location⟩],
      players := markInactive d.players r.1 }) db

/-- src/database.py: `Database.check_rate_limit`. `now` is
`datetime.utcnow()`; `windowStart` is `now.replace(hour=RESET_HOUR,
minute=0, second=0, microsecond=0)`, the start of the current window.
The returned `next_reset` timestamp is not modelled. Result:
(is_allowed, remaining_messages, updated store). -/
def check_rate_limit (db : Database) (chat_id : Int) (now windowStart : Nat) :
    Bool × Int × Database :=
  match lookupKey db.rate_limits chat_id with
  | none =>
      (true, MAX_MESSAGES_PER_DAY - 1,
       { db with rate_limits := upsertKey db.rate_limits chat_id ⟨1, now⟩ })
  | some row =>
      if row.last_reset < windowStart then
        (true, MAX_MESSAGES_PER_DAY - 1,
         { db with rate_limits := upsertKey db.rate_limits chat_id ⟨1, now⟩ })
      else if row.message_count ≥ MAX_MESSAGES_PER_DAY then
        (false, 0, db)
      else
        (true, MAX_MESSAGES_PER_DAY - (row.message_count + 1),
         { db with rate_limits :=
             upsertKey db.rate_limits chat_id ⟨row.message_count + 1, row.last_reset⟩ })

/-- src/game_logic.py: `GameAction.rest` (lines 63-76). Returns the
updated player and the message. -/
def GameAction_rest (p : PlayerState) : PlayerState × String :=
  if p.food ≤ 0 ∨ p.water ≤ 0 then
    (p, "You need both food and water to rest effectively.")
  else
    let heal_amount := REST_RECOVERY
    let old_health := p.health
    let health2 := min (p.health + heal_amount) MAX_HEALTH
    ({ p with food := p.food - 1, water := p.water - 1, health := health2 },
     "You rest and recover " ++ toString (health2 - old_health) ++ " health.")

/-- `p` a left-aligned match: `p` is an initial segment of `s`. -/
def headMatch : List Char → List Char → Bool
  | _, [] => true
  | [], _ :: _ => false
  | a :: s, b :: p => a == b && headMatch s p

/-- Substring occurrence over character lists. -/
def containsSub : List Char → List Char → Bool
  | [], p => headMatch [] p
  | a :: s, p => headMatch (a :: s) p || containsSub s p

/-- Python `pat in s` on strings (substring containment). -/
def strContains (s pat : String) : Bool := containsSub s.data pat.data

/-- Python `str.lower()` for the ASCII strings this program handles. -/
def lowerStr (s : String) : String := ⟨s.data.map Char.toLower⟩

/-- The fields of the `action_analysis` dict returned by
`scenario_generator.process_action` that `GameLogic.process_turn`
reads: `action_type`, `is_valid` (read with default `True`, but
`process_action` always sets it), and `feedback`. -/
structure ActionAnalysis where
  action_type : String
  is_valid : Bool
  feedback : String
deriving DecidableEq

/-- Explicit environment for one `process_turn` call: oracle results
and every random draw the turn can consume (src/game_logic.py
lines 105-218 and 244-261). -/
structure TurnEnv where
  /-- `scenario_generator.process_action` raises or times out. -/
  actionFails : Bool
  /-- result of `process_action` when it succeeds. -/
  analysis : ActionAnalysis
  /-- `scenario_generator.generate_outcome` raises or times out. -/
  outcomeFails : Bool
  /-- result of `generate_outcome` when it succeeds. -/
  outcomeText : String
  /-- `random.randint(5, 15)` in the COMBAT branch. -/
  combatDraw : ℚ
  /-- `random.random() < 0.6` in the EXPLORE branch. -/
  exploreFound : Bool
  /-- `random.randint(1, 3)` food found on EXPLORE success. -/
  foundFood : ℚ
  /-- `random.randint(1, 3)` water found on EXPLORE success. -/
  foundWater : ℚ
  /-- `random.random() < 0.3`: an inventory item is found. -/
  itemFound : Bool
  /-- `random.choice` over the item table. -/
  itemName : String
  /-- `random.randint(min_qty, max_qty)` for the found item. -/
  itemQty : Int
  /-- `random.random() < 0.2`: a weapon is found. -/
  weaponFound : Bool
  /-- `random.choices` over the weapon table. -/
  foundWeapon : String
  /-- `scenario_generator.generate_scenario` raises or times out. -/
  scenarioFails : Bool
  /-- result of `generate_scenario` when it succeeds. -/
  nextScenario : String
deriving DecidableEq

/-- src/game_logic.py lines 126-133: the `action_intensity` dict with
`.get(action_type, 1.0)`. -/
def action_intensity (t : String) : ℚ :=
  if t = "COMBAT" then 2
  else if t = "MOVE" then 3/2
  else if t = "EXPLORE" then 6/5
  else if t = "STEALTH" then 1
  else if t = "REST" then 1/2
  else if t = "CUSTOM" then 1
  else 1

/-- src/game_logic.py lines 180-184: add a found item to the inventory
dict. -/
def invAdd (inv : List (String × Int)) (name : String) (q : Int) :
    List (String × Int) :=
  if (inv.filter (fun it => it.1 = name)).length ≠ 0 then
    inv.map (fun it => if it.1 = name then (it.1, it.2 + q) else it)
  else inv ++ [(name, q)]

/-- src/game_logic.py lines 157-199: the action-type specific effects,
applied to the already-depleted player. -/
def apply_effects (p : PlayerState) (t : String) (env : TurnEnv) : PlayerState :=
  if t = "COMBAT" then
    { p with health := max 0 (p.health - env.combatDraw * action_intensity t) }
  else if t = "EXPLORE" then
    if env.exploreFound then
      let p1 := { p with food := p.food + env.foundFood,
                         water := p.water + env.foundWater }
      let p2 := if env.itemFound then
          { p1 with inventory := invAdd p1.inventory env.itemName env.itemQty }
        else p1
      if env.weaponFound ∧ p2.weapons.contains env.foundWeapon = false then
        { p2 with weapons := p2.weapons ++ [env.foundWeapon] }
      else p2
    else p
  else if t = "REST" then
    if p.food > 0 ∧ p.water > 0 then
      let heal_amount := min 20 (MAX_HEALTH - p.health)
      { p with health := min (p.health + heal_amount) MAX_HEALTH,
               food := p.food - 1, water := p.water - 1 }
    else p
  else p

/-- src/game_logic.py lines 204-211: one inventory entry of the
`use`-item loop; the accumulator carries (health, rebuilt inventory). -/
def useItemsStep (descLower : String) (acc : ℚ × List (String × Int))
    (it : String × Int) : ℚ × List (String × Int) :=
  if strContains descLower (lowerStr it.1) ∧ it.2 > 0 then
    let h := if it.1 = "Bandages" then min (acc.1 + 20) MAX_HEALTH
             else if it.1 = "Medicine" then min (acc.1 + 40) MAX_HEALTH
             else acc.1
    (h, acc.2 ++ [(it.1, it.2 - 1)])
  else (acc.1, acc.2 ++ [it])

/-- src/game_logic.py lines 201-211: if the action text mentions "use",
walk the inventory and apply matching items. -/
def use_items (desc : String) (health : ℚ) (inv : List (String × Int)) :
    ℚ × List (String × Int) :=
  if strContains (lowerStr desc) "use" then
    inv.foldl (useItemsStep (lowerStr desc)) (health, [])
  else (health, inv)

/-- Result of the `try` block of `process_turn` (lines 105-218):
either the early `return action_analysis["feedback"]` of line 123, or
the mutated player together with the `result` text — the latter also
covers the `except` branch (line 216), which keeps every mutation made
before the exception and sets `result` to the error message. -/
inductive TryResult where
  | invalidAction (feedback : String)
  | completed (p : PlayerState) (result : String)
deriving DecidableEq

/-- src/game_logic.py lines 135-140: the daily depletion step,
`food = max(0, food - resource_use)` and likewise for water, with
`resource_use = depletion_rate * action_intensity`. -/
def depleted (p : PlayerState) (prof : DifficultyProfile) (t : String) : PlayerState :=
  { p with
    food := max 0 (p.food - prof.resource_depletion_rate * action_intensity t),
    water := max 0 (p.water - prof.resource_depletion_rate * action_intensity t) }

/-- src/game_logic.py lines 156-211: action-type effects followed by
the `use`-item loop. -/
def afterEffects (p : PlayerState) (desc t : String) (env : TurnEnv) : PlayerState :=
  let p2 := apply_effects p t env
  let hu := use_items desc p2.health p2.inventory
  { p2 with health := hu.1, inventory := hu.2 }

/-- src/game_logic.py lines 105-218: the `try` block of `process_turn`.
Exception sources, in program order: `process_action` (line 107), the
`DIFFICULTY_LEVELS[...]` lookup (line 135), `generate_outcome`
(line 143). -/
def tryBlock (p : PlayerState) (desc : String) (env : TurnEnv) : TryResult :=
  if env.actionFails then
    .completed p "An error occurred while processing your action."
  else if env.analysis.is_valid = false then
    .invalidAction env.analysis.feedback
  else
    match DIFFICULTY_LEVELS p.difficulty with
    | none => .completed p "An error occurred while processing your action."
    | some prof =>
        let p1 := depleted p prof env.analysis.action_type
        if env.outcomeFails then
          .completed p1 "An error occurred while processing your action."
        else
          .completed (afterEffects p1 desc env.analysis.action_type env)
            env.outcomeText

/-- Which return branch of `process_turn` produced the reply. -/
inductive TurnOutcome where
  | noActive
  | invalid
  | died
  | won
  | continued
deriving DecidableEq

/-- Result of one `process_turn` call: the session, the durable store
after all `_save_to_db` commits of the turn, the reply text, and the
return branch taken. -/
structure TurnResult where
  player : PlayerState
  db : Database
  reply : String
  outcome : TurnOutcome
deriving DecidableEq

/-- src/game_logic.py: `GameLogic.process_turn` (lines 85-263).
The session-lookup preamble (lines 95-98) is modelled by passing the
fetched session `p`; a missing session behaves like the inactive case
(same reply, no mutation, no commit). `now` stamps every durable
commit of the turn. -/
def process_turn (p : PlayerState) (desc : String) (env : TurnEnv)
    (db : Database) (now : Nat) : TurnResult :=
  if p.game_active = false then
    ⟨p, db, "No active game found. Start a new game with /start", .noActive⟩
  else
    match tryBlock p desc env with
    | .invalidAction fb => ⟨p, db, fb, .invalid⟩
    | .completed p1 result =>
        let db1 := save_to_db db p1 now
        if p1.health ≤ 0 then
          let p2 := { p1 with game_active := false }
          ⟨p2, save_to_db db1 p2 now,
           "Game Over! You died on day " ++ toString p1.current_day ++
             ".\n" ++ result, .died⟩
        else if p1.current_day ≥ DAYS_TO_WIN then
          let p2 := { p1 with game_active := false }
          ⟨p2, save_to_db db1 p2 now,
           "Victory! You survived for " ++ toString DAYS_TO_WIN ++
             " days!\n" ++ result, .won⟩
        else
          let p2 := { p1 with current_day := p1.current_day + 1 }
          let next := if env.scenarioFails then
              "You continue your survival journey..."
            else env.nextScenario
          ⟨p2, save_to_db db1 p2 now, result ++ "\n\n" ++ next, .continued⟩

/-- State of the rate-limit store after `n` successive
`check_rate_limit` calls for one player inside one window. -/
def checkIter (db : Database) (c : Int) (now ws : Nat) : Nat → Database
  | 0 => db
  | n + 1 => (check_rate_limit (checkIter db c now ws n) c now ws).2.2

/-! ### Concrete test fixtures -/

/-- Empty durable store. -/
def dbEmpty : Database := ⟨[], [], []⟩

/-- The `normal` difficulty profile. -/
def profNormal : DifficultyProfile := ⟨80, 7, 7, ["Knife"], 15, 1⟩

/-- The `easy` difficulty profile. -/
def profEasy : DifficultyProfile := ⟨100, 10, 10, ["Baseball Bat"], 10, 1/2⟩

/-- Oracle environment for a valid action of type `t` with fixed draws. -/
def envOf (t : String) : TurnEnv :=
  ⟨false, ⟨t, true, ""⟩, false, "ok", 10, false, 1, 1, false, "", 0, false, "",
   false, "next"⟩

/-- Oracle environment classifying the action as invalid. -/
def envInvalid : TurnEnv :=
  ⟨false, ⟨"CUSTOM", false, "not possible"⟩, false, "ok", 10, false, 1, 1,
   false, "", 0, false, "", false, "next"⟩

/-- Oracle environment in which `process_action` raises/times out. -/
def envOracleDown : TurnEnv :=
  ⟨true, ⟨"CUSTOM", true, ""⟩, false, "ok", 10, false, 1, 1, false, "", 0,
   false, "", false, "next"⟩

/-- Easy-tier session with fractional resources strictly between 0 and 1. -/
def pFrac : PlayerState :=
  ⟨1, "alice", 50, 1/2, 1/2, ["Baseball Bat"], 5, "easy", "Safe House", [], true⟩

/-- Healthy mid-game normal-tier session. -/
def pStd : PlayerState :=
  ⟨2, "bob", 80, 7, 7, ["Knife"], 5, "normal", "Safe House", [], true⟩

/-- `pStd` after depletion of one unit of food and water. -/
def pStdDep : PlayerState :=
  ⟨2, "bob", 80, 6, 6, ["Knife"], 5, "normal", "Safe House", [], true⟩

/-- Normal-tier session at health 15 (one combat hit from death). -/
def pHurt : PlayerState :=
  ⟨3, "carol", 15, 7, 7, ["Knife"], 9, "normal", "Safe House", [], true⟩

/-- `pHurt` after a COMBAT turn with draw 10: depleted by 2, health
clamped to 0. -/
def pHurtPost : PlayerState :=
  ⟨3, "carol", 0, 5, 5, ["Knife"], 9, "normal", "Safe House", [], true⟩

/-- Easy-tier session with no food but some water. -/
def pNoFood : PlayerState :=
  ⟨4, "dan", 50, 0, 3, ["Baseball Bat"], 5, "easy", "Safe House", [], true⟩

/-- Normal-tier session at day 29 (one continue from the threshold). -/
def pDay29 : PlayerState :=
  ⟨5, "eve", 80, 7, 7, ["Knife"], 29, "normal", "Safe House", [], true⟩

/-- `pDay29` after depletion in a CUSTOM turn. -/
def pDay29Dep : PlayerState :=
  ⟨5, "eve", 80, 6, 6, ["Knife"], 29, "normal", "Safe House", [], true⟩

/-- Normal-tier session at day 30 (the win threshold). -/
def pDay30 : PlayerState :=
  ⟨6, "finn", 80, 7, 7, ["Knife"], 30, "normal", "Safe House", [], true⟩

/-- `pDay30` after depletion in a CUSTOM turn. -/
def pDay30Dep : PlayerState :=
  ⟨6, "finn", 80, 6, 6, ["Knife"], 30, "normal", "Safe House", [], true⟩

/-- `pFrac` after a REST turn: depletion leaves 1/4 of each resource,
then the rest effect heals to 70 and consumes one unit of each. -/
def pFracPost : PlayerState :=
  ⟨1, "alice", 70, -3/4, -3/4, ["Baseball Bat"], 5, "easy", "Safe House", [], true⟩

/-- `pNoFood` after a REST turn: depletion still reduces water to 11/4;
the rest effect is skipped because food is 0. -/
def pNoFoodPost : PlayerState :=
  ⟨4, "dan", 50, 0, 11/4, ["Baseball Bat"], 5, "easy", "Safe House", [], true⟩

/-- A still-active hard-tier session, cached in memory. -/
def pOldGame : PlayerState :=
  ⟨7, "gil", 60, 5, 5, ["Fists"], 4, "hard", "Safe House", [], true⟩

/-- Manager whose cache holds the active session `pOldGame`. -/
def mOld : GameStateManager := ⟨dbEmpty, [(7, pOldGame)]⟩

/-- A terminated (inactive) session still present in memory. -/
def pInactiveMem : PlayerState :=
  ⟨8, "hana", 0, 2, 2, ["Knife"], 12, "normal", "Safe House", [], false⟩

/-- Manager whose cache holds the inactive session `pInactiveMem`. -/
def mInactiveMem : GameStateManager := ⟨dbEmpty, [(8, pInactiveMem)]⟩

/-- A terminated session present only in the durable store. -/
def pInactiveDb : PlayerState :=
  ⟨9, "ivy", 0, 1, 1, ["Fists"], 3, "hard", "Safe House", [], false⟩

/-- Manager with an empty cache whose store holds the inactive
session `pInactiveDb`. -/
def mInactiveDb : GameStateManager := ⟨⟨[(9, ⟨pInactiveDb, 4⟩)], [], []⟩, []⟩

/-! ### General lemmas about the embedding -/

theorem lookupKey_upsertKey_self {α : Type} (l : List (Int × α)) (k : Int) (v : α) :
    lookupKey (upsertKey l k v) k = some v := by
  induction l with
  | nil => simp [upsertKey, lookupKey]
  | cons hd tl ih =>
      by_cases h : hd.1 = k <;>
        simp [upsertKey, lookupKey, h, ih]

theorem upsertKey_idem {α : Type} (l : List (Int × α)) (k : Int) (v : α) :
    upsertKey (upsertKey l k v) k v = upsertKey l k v := by
  induction l with
  | nil => simp [upsertKey]
  | cons hd tl ih =>
      by_cases h : hd.1 = k <;>
        simp [upsertKey, h, ih]

theorem tryBlock_actionFails (p : PlayerState) (desc : String) (env : TurnEnv)
    (h : env.actionFails = true) :
    tryBlock p desc env =
      .completed p "An error occurred while processing your action." := by
  simp [tryBlock, h]

theorem tryBlock_invalid (p : PlayerState) (desc : String) (env : TurnEnv)
    (h : env.actionFails = false) (hv : env.analysis.is_valid = false) :
    tryBlock p desc env = .invalidAction env.analysis.feedback := by
  simp [tryBlock, h, hv]

theorem tryBlock_noProfile (p : PlayerState) (desc : String) (env : TurnEnv)
    (h : env.actionFails = false) (hv : env.analysis.is_valid = true)
    (hprof : DIFFICULTY_LEVELS p.difficulty = none) :
    tryBlock p desc env =
      .completed p "An error occurred while processing your action." := by
  simp [tryBlock, h, hv, hprof]

theorem tryBlock_outcomeFails (p : PlayerState) (desc : String) (env : TurnEnv)
    (prof : DifficultyProfile)
    (h : env.actionFails = false) (hv : env.analysis.is_valid = true)
    (hprof : DIFFICULTY_LEVELS p.difficulty = some prof)
    (ho : env.outcomeFails = true) :
    tryBlock p desc env =
      .completed (depleted p prof env.analysis.action_type)
        "An error occurred while processing your action." := by
  simp [tryBlock, h, hv, hprof, ho]

theorem tryBlock_success (p : PlayerState) (desc : String) (env : TurnEnv)
    (prof : DifficultyProfile)
    (h : env.actionFails = false) (hv : env.analysis.is_valid = true)
    (hprof : DIFFICULTY_LEVELS p.difficulty = some prof)
    (ho : env.outcomeFails = false) :
    tryBlock p desc env =
      .completed
        (afterEffects (depleted p prof env.analysis.action_type) desc
          env.analysis.action_type env)
        env.outcomeText := by
  simp [tryBlock, h, hv, hprof, ho]

/-- Every `completed` result of the `try` block is the unchanged player
(exception before any mutation), the depleted player (exception after
depletion), or the fully processed player. -/
theorem tryBlock_completed_cases (p p1 : PlayerState) (desc res : String)
    (env : TurnEnv) (h : tryBlock p desc env = .completed p1 res) :
    p1 = p ∨
      ∃ prof, DIFFICULTY_LEVELS p.difficulty = some prof ∧
        (p1 = depleted p prof env.analysis.action_type ∨
         p1 = afterEffects (depleted p prof env.analysis.action_type) desc
                env.analysis.action_type env) := by
  cases hAF : env.actionFails with
  | true =>
      rw [tryBlock_actionFails p desc env hAF] at h
      exact Or.inl (TryResult.completed.inj h).1.symm
  | false =>
      cases hV : env.analysis.is_valid with
      | false =>
          rw [tryBlock_invalid p desc env hAF hV] at h
          cases h
      | true =>
          cases hprof : DIFFICULTY_LEVELS p.difficulty with
          | none =>
              rw [tryBlock_noProfile p desc env hAF hV hprof] at h
              exact Or.inl (TryResult.completed.inj h).1.symm
          | some prof =>
              cases hOF : env.outcomeFails with
              | true =>
                  rw [tryBlock_outcomeFails p desc env prof hAF hV hprof hOF] at h
                  exact Or.inr ⟨prof, rfl,
                    Or.inl (TryResult.completed.inj h).1.symm⟩
              | false =>
                  rw [tryBlock_success p desc env prof hAF hV hprof hOF] at h
                  exact Or.inr ⟨prof, rfl,
                    Or.inr (TryResult.completed.inj h).1.symm⟩

theorem apply_effects_rest (p : PlayerState) (env : TurnEnv) :
    apply_effects p "REST" env =
      (if p.food > 0 ∧ p.water > 0 then
        { p with
          health := min (p.health + min 20 (MAX_HEALTH - p.health)) MAX_HEALTH,
          food := p.food - 1, water := p.water - 1 }
      else p) := by
  simp [apply_effects]

theorem apply_effects_combat (p : PlayerState) (env : TurnEnv) :
    apply_effects p "COMBAT" env =
      { p with health := max 0 (p.health - env.combatDraw * 2) } := by
  simp [apply_effects, action_intensity]

theorem apply_effects_explore_resources (p : PlayerState) (env : TurnEnv)
    (hEF : env.exploreFound = true) :
    (apply_effects p "EXPLORE" env).health = p.health ∧
    (apply_effects p "EXPLORE" env).food = p.food + env.foundFood ∧
    (apply_effects p "EXPLORE" env).water = p.water + env.foundWater := by
  unfold apply_effects
  simp only [hEF]
  split_ifs <;> simp_all

theorem apply_effects_explore_none (p : PlayerState) (env : TurnEnv)
    (hEF : env.exploreFound = false) :
    apply_effects p "EXPLORE" env = p := by
  simp [apply_effects, hEF]

theorem apply_effects_other (p : PlayerState) (t : String) (env : TurnEnv)
    (h1 : t ≠ "COMBAT") (h2 : t ≠ "EXPLORE") (h3 : t ≠ "REST") :
    apply_effects p t env = p := by
  simp [apply_effects, h1, h2, h3]

/-- `apply_effects` only touches health, food, water, inventory and
weapons. -/
theorem apply_effects_fields (p : PlayerState) (t : String) (env : TurnEnv) :
    (apply_effects p t env).chat_id = p.chat_id ∧
    (apply_effects p t env).username = p.username ∧
    (apply_effects p t env).current_day = p.current_day ∧
    (apply_effects p t env).difficulty = p.difficulty ∧
    (apply_effects p t env).location = p.location ∧
    (apply_effects p t env).game_active = p.game_active := by
  unfold apply_effects
  split_ifs <;> simp <;> split_ifs <;> simp

/-- `depleted` only touches food and water. -/
theorem depleted_fields (p : PlayerState) (prof : DifficultyProfile) (t : String) :
    (depleted p prof t).chat_id = p.chat_id ∧
    (depleted p prof t).username = p.username ∧
    (depleted p prof t).health = p.health ∧
    (depleted p prof t).current_day = p.current_day ∧
    (depleted p prof t).difficulty = p.difficulty ∧
    (depleted p prof t).location = p.location ∧
    (depleted p prof t).game_active = p.game_active := by
  simp [depleted]

/-- `afterEffects` only touches health, food, water, inventory and
weapons. -/
theorem afterEffects_fields (p : PlayerState) (desc t : String) (env : TurnEnv) :
    (afterEffects p desc t env).chat_id = p.chat_id ∧
    (afterEffects p desc t env).username = p.username ∧
    (afterEffects p desc t env).current_day = p.current_day ∧
    (afterEffects p desc t env).difficulty = p.difficulty ∧
    (afterEffects p desc t env).location = p.location ∧
    (afterEffects p desc t env).game_active = p.game_active := by
  have h := apply_effects_fields p t env
  simp only [afterEffects]
  exact ⟨h.1, h.2.1, h.2.2.1, h.2.2.2.1, h.2.2.2.2.1, h.2.2.2.2.2⟩

/-- The `try` block of `process_turn` never changes the identity,
day counter, or active flag of the session. -/
theorem tryBlock_preserves (p p1 : PlayerState) (desc res : String) (env : TurnEnv)
    (h : tryBlock p desc env = .completed p1 res) :
    p1.chat_id = p.chat_id ∧
    p1.username = p.username ∧
    p1.current_day = p.current_day ∧
    p1.game_active = p.game_active := by
  rcases tryBlock_completed_cases p p1 desc res env h with h1 | ⟨prof, _, h2 | h3⟩
  · rw [h1]; exact ⟨rfl, rfl, rfl, rfl⟩
  · rw [h2]
    have hd := depleted_fields p prof env.analysis.action_type
    exact ⟨hd.1, hd.2.1, hd.2.2.2.1, hd.2.2.2.2.2.2⟩
  · rw [h3]
    have ha := afterEffects_fields (depleted p prof env.analysis.action_type) desc
      env.analysis.action_type env
    have hd := depleted_fields p prof env.analysis.action_type
    refine ⟨ha.1.trans hd.1, (ha.2.1).trans hd.2.1,
      (ha.2.2.1).trans hd.2.2.2.1, (ha.2.2.2.2.2).trans hd.2.2.2.2.2.2⟩

/-- One step of the `use`-item loop keeps health within `[0, MAX_HEALTH]`. -/
theorem useItemsStep_health_bounds (d : String) (acc : ℚ × List (String × Int))
    (it : String × Int) (h0 : 0 ≤ acc.1) (h1 : acc.1 ≤ MAX_HEALTH) :
    0 ≤ (useItemsStep d acc it).1 ∧ (useItemsStep d acc it).1 ≤ MAX_HEALTH := by
  unfold useItemsStep
  split_ifs
  · exact ⟨le_min (by linarith) (by linarith), min_le_right _ _⟩
  · exact ⟨le_min (by linarith) (by linarith), min_le_right _ _⟩
  · exact ⟨h0, h1⟩
  · exact ⟨h0, h1⟩

/-- The whole `use`-item loop keeps health within `[0, MAX_HEALTH]`. -/
theorem useItems_fold_health_bounds (d : String) :
    ∀ (inv : List (String × Int)) (acc : ℚ × List (String × Int)),
      0 ≤ acc.1 → acc.1 ≤ MAX_HEALTH →
      0 ≤ (inv.foldl (useItemsStep d) acc).1 ∧
        (inv.foldl (useItemsStep d) acc).1 ≤ MAX_HEALTH := by
  intro inv
  induction inv with
  | nil => intro acc h0 h1; exact ⟨h0, h1⟩
  | cons it tl ih =>
      intro acc h0 h1
      have hs := useItemsStep_health_bounds d acc it h0 h1
      simpa using ih (useItemsStep d acc it) hs.1 hs.2

theorem use_items_health_bounds (desc : String) (health : ℚ)
    (inv : List (String × Int)) (h0 : 0 ≤ health) (h1 : health ≤ MAX_HEALTH) :
    0 ≤ (use_items desc health inv).1 ∧
      (use_items desc health inv).1 ≤ MAX_HEALTH := by
  unfold use_items
  split_ifs
  · exact useItems_fold_health_bounds (lowerStr desc) inv (health, []) h0 h1
  · exact ⟨h0, h1⟩

/-- `apply_effects` keeps health within `[0, MAX_HEALTH]` and never
drives food or water below `-1` (strictly), given non-negative random
draws. -/
theorem apply_effects_bounds (p : PlayerState) (t : String) (env : TurnEnv)
    (hh0 : 0 ≤ p.health) (hh1 : p.health ≤ MAX_HEALTH)
    (hf : 0 ≤ p.food) (hw : 0 ≤ p.water)
    (hcd : 0 ≤ env.combatDraw) (hff : 0 ≤ env.foundFood)
    (hfw : 0 ≤ env.foundWater) :
    (0 ≤ (apply_effects p t env).health ∧
      (apply_effects p t env).health ≤ MAX_HEALTH) ∧
    (-1 : ℚ) < (apply_effects p t env).food ∧
    (-1 : ℚ) < (apply_effects p t env).water := by
  have hM : (0:ℚ) ≤ MAX_HEALTH := le_trans hh0 hh1
  by_cases h1 : t = "COMBAT"
  · subst h1
    rw [apply_effects_combat]
    have hcd2 : (0:ℚ) ≤ env.combatDraw * 2 := by linarith
    exact ⟨⟨le_max_left 0 _, max_le hM (by linarith)⟩, by linarith, by linarith⟩
  · by_cases h2 : t = "EXPLORE"
    · subst h2
      cases hEF : env.exploreFound with
      | false =>
          rw [apply_effects_explore_none p env hEF]
          exact ⟨⟨hh0, hh1⟩, by linarith, by linarith⟩
      | true =>
          obtain ⟨he1, he2, he3⟩ := apply_effects_explore_resources p env hEF
          rw [he1, he2, he3]
          exact ⟨⟨hh0, hh1⟩, by linarith, by linarith⟩
    · by_cases h3 : t = "REST"
      · subst h3
        rw [apply_effects_rest]
        split_ifs with hfw2
        · obtain ⟨hf2, hw2⟩ := hfw2
          have hmin : (0:ℚ) ≤ min 20 (MAX_HEALTH - p.health) :=
            le_min (by norm_num) (by linarith)
          refine ⟨⟨?_, ?_⟩, ?_, ?_⟩
          · show 0 ≤ min (p.health + min 20 (MAX_HEALTH - p.health)) MAX_HEALTH
            exact le_min (by linarith) hM
          · show min (p.health + min 20 (MAX_HEALTH - p.health)) MAX_HEALTH ≤ MAX_HEALTH
            exact min_le_right _ _
          · show (-1:ℚ) < p.food - 1
            linarith
          · show (-1:ℚ) < p.water - 1
            linarith
        · exact ⟨⟨hh0, hh1⟩, by linarith, by linarith⟩
      · rw [apply_effects_other p t env h1 h2 h3]
        exact ⟨⟨hh0, hh1⟩, by linarith, by linarith⟩

theorem process_turn_inactive (p : PlayerState) (desc : String) (env : TurnEnv)
    (db : Database) (now : Nat) (h : p.game_active = false) :
    process_turn p desc env db now =
      ⟨p, db, "No active game found. Start a new game with /start", .noActive⟩ := by
  simp [process_turn, h]

theorem process_turn_invalid (p : PlayerState) (desc : String) (env : TurnEnv)
    (db : Database) (now : Nat) (hact : p.game_active = true)
    (h : tryBlock p desc env = .invalidAction fb) :
    process_turn p desc env db now = ⟨p, db, fb, .invalid⟩ := by
  simp [process_turn, hact, h]

theorem process_turn_died (p p1 : PlayerState) (res desc : String) (env : TurnEnv)
    (db : Database) (now : Nat) (hact : p.game_active = true)
    (h : tryBlock p desc env = .completed p1 res) (hh : p1.health ≤ 0) :
    process_turn p desc env db now =
      ⟨{ p1 with game_active := false },
       save_to_db (save_to_db db p1 now) { p1 with game_active := false } now,
       "Game Over! You died on day " ++ toString p1.current_day ++ ".\n" ++ res,
       .died⟩ := by
  simp [process_turn, hact, h, hh]

theorem process_turn_won (p p1 : PlayerState) (res desc : String) (env : TurnEnv)
    (db : Database) (now : Nat) (hact : p.game_active = true)
    (h : tryBlock p desc env = .completed p1 res) (hh : 0 < p1.health)
    (hd : DAYS_TO_WIN ≤ p1.current_day) :
    process_turn p desc env db now =
      ⟨{ p1 with game_active := false },
       save_to_db (save_to_db db p1 now) { p1 with game_active := false } now,
       "Victory! You survived for " ++ toString DAYS_TO_WIN ++ " days!\n" ++ res,
       .won⟩ := by
  simp [process_turn, hact, h, not_le.mpr hh, hd]

theorem process_turn_continued (p p1 : PlayerState) (res desc : String) (env : TurnEnv)
    (db : Database) (now : Nat) (hact : p.game_active = true)
    (h : tryBlock p desc env = .completed p1 res) (hh : 0 < p1.health)
    (hd : p1.current_day < DAYS_TO_WIN) :
    process_turn p desc env db now =
      ⟨{ p1 with current_day := p1.current_day + 1 },
       save_to_db (save_to_db db p1 now) { p1 with current_day := p1.current_day + 1 } now,
       res ++ "\n\n" ++
         (if env.scenarioFails then "You continue your survival journey..."
          else env.nextScenario),
       .continued⟩ := by
  simp [process_turn, hact, h, not_le.mpr hh, not_le.mpr hd]

/-- When the action text does not mention "use", the item loop is the
identity and `afterEffects` is just `apply_effects`. -/
theorem afterEffects_nouse (q : PlayerState) (desc t : String) (env : TurnEnv)
    (hd : strContains (lowerStr desc) "use" = false) :
    afterEffects q desc t env = apply_effects q t env := by
  simp [afterEffects, use_items, hd]

/-- With a successful oracle call and a valid classification, the
`try` block never takes the invalid-action early return. -/
theorem tryBlock_not_invalid (p : PlayerState) (desc fb : String) (env : TurnEnv)
    (hAF : env.actionFails = false) (hV : env.analysis.is_valid = true) :
    tryBlock p desc env ≠ .invalidAction fb := by
  cases hprof : DIFFICULTY_LEVELS p.difficulty with
  | none => rw [tryBlock_noProfile p desc env hAF hV hprof]; simp
  | some prof =>
      cases hOF : env.outcomeFails with
      | true => rw [tryBlock_outcomeFails p desc env prof hAF hV hprof hOF]; simp
      | false => rw [tryBlock_success p desc env prof hAF hV hprof hOF]; simp

/-- A durable session commit never touches the history table. -/
theorem save_to_db_history (db : Database) (p : PlayerState) (now : Nat) :
    (save_to_db db p now).history = db.history := rfl

/-- Retiring a prior session never touches the history table. -/
theorem end_existing_game_history (m : GameStateManager) (c : Int) (now : Nat) :
    (end_existing_game m c now).db.history = m.db.history := by
  unfold end_existing_game
  cases lookupKey m.active_games c <;> rfl

/-! ### Evaluation of the concrete fixtures -/

theorem tryBlock_pStd :
    tryBlock pStd "go" (envOf "CUSTOM") = .completed pStdDep "ok" := by
  have hprof : DIFFICULTY_LEVELS pStd.difficulty = some profNormal := by
    simp [DIFFICULTY_LEVELS, pStd, profNormal]
  rw [tryBlock_success pStd "go" (envOf "CUSTOM") profNormal rfl rfl hprof rfl]
  rw [afterEffects_nouse _ _ _ _ (by decide)]
  rw [apply_effects_other _ _ _ (by decide) (by decide) (by decide)]
  simp only [envOf, depleted, pStd, pStdDep, profNormal, action_intensity,
    String.reduceEq, if_false]
  norm_num [max_def]

theorem run_pStd :
    process_turn pStd "go" (envOf "CUSTOM") dbEmpty 7 =
      ⟨{ pStdDep with current_day := 6 },
       save_to_db (save_to_db dbEmpty pStdDep 7)
         { pStdDep with current_day := 6 } 7,
       "ok" ++ "\n\n" ++ "next", .continued⟩ := by
  rw [process_turn_continued pStd pStdDep "ok" "go" (envOf "CUSTOM") dbEmpty 7
    rfl tryBlock_pStd (by norm_num [pStdDep]) (by decide)]
  simp [pStdDep, envOf]

theorem tryBlock_pDay29 :
    tryBlock pDay29 "go" (envOf "CUSTOM") = .completed pDay29Dep "ok" := by
  have hprof : DIFFICULTY_LEVELS pDay29.difficulty = some profNormal := by
    simp [DIFFICULTY_LEVELS, pDay29, profNormal]
  rw [tryBlock_success pDay29 "go" (envOf "CUSTOM") profNormal rfl rfl hprof rfl]
  rw [afterEffects_nouse _ _ _ _ (by decide)]
  rw [apply_effects_other _ _ _ (by decide) (by decide) (by decide)]
  simp only [envOf, depleted, pDay29, pDay29Dep, profNormal, action_intensity,
    String.reduceEq, if_false]
  norm_num [max_def]

theorem run_pDay29 :
    process_turn pDay29 "go" (envOf "CUSTOM") dbEmpty 8 =
      ⟨{ pDay29Dep with current_day := 30 },
       save_to_db (save_to_db dbEmpty pDay29Dep 8)
         { pDay29Dep with current_day := 30 } 8,
       "ok" ++ "\n\n" ++ "next", .continued⟩ := by
  rw [process_turn_continued pDay29 pDay29Dep "ok" "go" (envOf "CUSTOM") dbEmpty 8
    rfl tryBlock_pDay29 (by norm_num [pDay29Dep]) (by decide)]
  simp [pDay29Dep, envOf]

theorem tryBlock_pDay30 :
    tryBlock pDay30 "go" (envOf "CUSTOM") = .completed pDay30Dep "ok" := by
  have hprof : DIFFICULTY_LEVELS pDay30.difficulty = some profNormal := by
    simp [DIFFICULTY_LEVELS, pDay30, profNormal]
  rw [tryBlock_success pDay30 "go" (envOf "CUSTOM") profNormal rfl rfl hprof rfl]
  rw [afterEffects_nouse _ _ _ _ (by decide)]
  rw [apply_effects_other _ _ _ (by decide) (by decide) (by decide)]
  simp only [envOf, depleted, pDay30, pDay30Dep, profNormal, action_intensity,
    String.reduceEq, if_false]
  norm_num [max_def]

theorem run_pDay30 :
    process_turn pDay30 "go" (envOf "CUSTOM") dbEmpty 9 =
      ⟨{ pDay30Dep with game_active := false },
       save_to_db (save_to_db dbEmpty pDay30Dep 9)
         { pDay30Dep with game_active := false } 9,
       "Victory! You survived for " ++ toString DAYS_TO_WIN ++ " days!\n" ++ "ok",
       .won⟩ := by
  rw [process_turn_won pDay30 pDay30Dep "ok" "go" (envOf "CUSTOM") dbEmpty 9
    rfl tryBlock_pDay30 (by norm_num [pDay30Dep]) (by decide)]

theorem tryBlock_pHurt :
    tryBlock pHurt "fight" (envOf "COMBAT") = .completed pHurtPost "ok" := by
  have hprof : DIFFICULTY_LEVELS pHurt.difficulty = some profNormal := by
    simp [DIFFICULTY_LEVELS, pHurt, profNormal]
  rw [tryBlock_success pHurt "fight" (envOf "COMBAT") profNormal rfl rfl hprof rfl]
  rw [afterEffects_nouse _ _ _ _ (by decide)]
  simp only [envOf]
  rw [apply_effects_combat]
  simp only [depleted, pHurt, pHurtPost, profNormal, action_intensity,
    String.reduceEq, if_false]
  norm_num [max_def]

theorem run_pHurt :
    process_turn pHurt "fight" (envOf "COMBAT") dbEmpty 3 =
      ⟨{ pHurtPost with game_active := false },
       save_to_db (save_to_db dbEmpty pHurtPost 3)
         { pHurtPost with game_active := false } 3,
       "Game Over! You died on day " ++ toString pHurtPost.current_day ++
         ".\n" ++ "ok", .died⟩ := by
  rw [process_turn_died pHurt pHurtPost "ok" "fight" (envOf "COMBAT") dbEmpty 3
    rfl tryBlock_pHurt (by norm_num [pHurtPost])]

theorem tryBlock_pFrac :
    tryBlock pFrac "rest" (envOf "REST") = .completed pFracPost "ok" := by
  have hprof : DIFFICULTY_LEVELS pFrac.difficulty = some profEasy := by
    simp [DIFFICULTY_LEVELS, pFrac, profEasy]
  rw [tryBlock_success pFrac "rest" (envOf "REST") profEasy rfl rfl hprof rfl]
  rw [afterEffects_nouse _ _ _ _ (by decide)]
  simp only [envOf]
  rw [apply_effects_rest]
  simp only [depleted, pFrac, pFracPost, profEasy, action_intensity,
    String.reduceEq, if_false, MAX_HEALTH]
  norm_num [max_def, min_def]

theorem run_pFrac :
    process_turn pFrac "rest" (envOf "REST") dbEmpty 2 =
      ⟨{ pFracPost with current_day := 6 },
       save_to_db (save_to_db dbEmpty pFracPost 2)
         { pFracPost with current_day := 6 } 2,
       "ok" ++ "\n\n" ++ "next", .continued⟩ := by
  rw [process_turn_continued pFrac pFracPost "ok" "rest" (envOf "REST") dbEmpty 2
    rfl tryBlock_pFrac (by norm_num [pFracPost]) (by decide)]
  simp [pFracPost, envOf]

theorem tryBlock_pNoFood :
    tryBlock pNoFood "rest" (envOf "REST") = .completed pNoFoodPost "ok" := by
  have hprof : DIFFICULTY_LEVELS pNoFood.difficulty = some profEasy := by
    simp [DIFFICULTY_LEVELS, pNoFood, profEasy]
  rw [tryBlock_success pNoFood "rest" (envOf "REST") profEasy rfl rfl hprof rfl]
  rw [afterEffects_nouse _ _ _ _ (by decide)]
  simp only [envOf]
  rw [apply_effects_rest]
  simp only [depleted, pNoFood, pNoFoodPost, profEasy, action_intensity,
    String.reduceEq, if_false, MAX_HEALTH]
  norm_num [max_def, min_def]

theorem run_pNoFood :
    process_turn pNoFood "rest" (envOf "REST") dbEmpty 2 =
      ⟨{ pNoFoodPost with current_day := 6 },
       save_to_db (save_to_db dbEmpty pNoFoodPost 2)
         { pNoFoodPost with current_day := 6 } 2,
       "ok" ++ "\n\n" ++ "next", .continued⟩ := by
  rw [process_turn_continued pNoFood pNoFoodPost "ok" "rest" (envOf "REST")
    dbEmpty 2 rfl tryBlock_pNoFood (by norm_num [pNoFoodPost]) (by decide)]
  simp [pNoFoodPost, envOf]

/-- Exhaustive description of the five return branches of
`process_turn`. -/
theorem process_turn_cases (p : PlayerState) (desc : String) (env : TurnEnv)
    (db : Database) (now : Nat) :
    (p.game_active = false ∧
      process_turn p desc env db now =
        ⟨p, db, "No active game found. Start a new game with /start", .noActive⟩) ∨
    (p.game_active = true ∧ ∃ fb, tryBlock p desc env = .invalidAction fb ∧
      process_turn p desc env db now = ⟨p, db, fb, .invalid⟩) ∨
    (p.game_active = true ∧ ∃ p1 res, tryBlock p desc env = .completed p1 res ∧
      p1.health ≤ 0 ∧
      process_turn p desc env db now =
        ⟨{ p1 with game_active := false },
         save_to_db (save_to_db db p1 now) { p1 with game_active := false } now,
         "Game Over! You died on day " ++ toString p1.current_day ++ ".\n" ++ res,
         .died⟩) ∨
    (p.game_active = true ∧ ∃ p1 res, tryBlock p desc env = .completed p1 res ∧
      0 < p1.health ∧ DAYS_TO_WIN ≤ p1.current_day ∧
      process_turn p desc env db now =
        ⟨{ p1 with game_active := false },
         save_to_db (save_to_db db p1 now) { p1 with game_active := false } now,
         "Victory! You survived for " ++ toString DAYS_TO_WIN ++ " days!\n" ++ res,
         .won⟩) ∨
    (p.game_active = true ∧ ∃ p1 res, tryBlock p desc env = .completed p1 res ∧
      0 < p1.health ∧ p1.current_day < DAYS_TO_WIN ∧
      process_turn p desc env db now =
        ⟨{ p1 with current_day := p1.current_day + 1 },
         save_to_db (save_to_db db p1 now)
           { p1 with current_day := p1.current_day + 1 } now,
         res ++ "\n\n" ++
           (if env.scenarioFails then "You continue your survival journey..."
            else env.nextScenario),
         .continued⟩) := by
  by_cases hact : p.game_active = true
  · cases htb : tryBlock p desc env with
    | invalidAction fb =>
        exact Or.inr (Or.inl ⟨hact, fb, rfl,
          process_turn_invalid p desc env db now hact htb⟩)
    | completed p1 res =>
        by_cases hh : p1.health ≤ 0
        · exact Or.inr (Or.inr (Or.inl ⟨hact, p1, res, rfl, hh,
            process_turn_died p p1 res desc env db now hact htb hh⟩))
        · push_neg at hh
          by_cases hd : DAYS_TO_WIN ≤ p1.current_day
          · exact Or.inr (Or.inr (Or.inr (Or.inl ⟨hact, p1, res, rfl, hh, hd,
              process_turn_won p p1 res desc env db now hact htb hh hd⟩)))
          · push_neg at hd
            exact Or.inr (Or.inr (Or.inr (Or.inr ⟨hact, p1, res, rfl, hh, hd,
              process_turn_continued p p1 res desc env db now hact htb hh hd⟩)))
  · have h0 : p.game_active = false := by simpa using hact
    exact Or.inl ⟨h0, process_turn_inactive p desc env db now h0⟩

/-! ### Claim theorems -/

/-- C9: a durable commit is an upsert keyed by the player identifier,
so committing the same session content twice in a row leaves the
durable store in the same state as committing it once, and a read after
the commit returns exactly the committed record. -/
theorem c9_commit_idempotent (db : Database) (p : PlayerState) (now : Nat) :
    save_to_db (save_to_db db p now) p now = save_to_db db p now ∧
    lookupKey (save_to_db db p now).players p.chat_id = some ⟨p, now⟩ := by
  constructor
  · simp [save_to_db, upsertKey_idem]
  · simp [save_to_db, lookupKey_upsertKey_self]

/-- C10: a terminated session still cached in memory is returned by
`get_player_state`; the same terminated session present only in the
durable store yields `none`, because both the fallback query and the
startup hydration select only records with `game_active = 1`. -/
theorem c10_inactive_session_asymmetry (m : GameStateManager) (c : Int)
    (p : PlayerState) (row : PlayerRow) :
    (lookupKey m.active_games c = some p → p.game_active = false →
      (get_player_state m c).1 = some p) ∧
    (lookupKey m.active_games c = none → lookupKey m.db.players c = some row →
      row.state.game_active = false → (get_player_state m c).1 = none) ∧
    (∀ x ∈ load_active_games m.db, x.2.game_active = true) := by
  refine ⟨?_, ?_, ?_⟩
  · intro h1 _
    simp [get_player_state, h1]
  · intro h1 h2 h3
    simp [get_player_state, h1, h2, h3]
  · intro x hx
    rcases List.mem_map.mp hx with ⟨y, hy, hxy⟩
    rcases List.mem_filter.mp hy with ⟨_, hactive⟩
    rw [← hxy]
    simpa using hactive

/-- Witness for C10: `pInactiveMem` is inactive yet returned from the
cache; `pInactiveDb` is inactive and invisible through the store. -/
theorem c10_witness :
    (get_player_state mInactiveMem 8).1 = some pInactiveMem ∧
    (get_player_state mInactiveDb 9).1 = none := by
  constructor
  · exact (c10_inactive_session_asymmetry mInactiveMem 8 pInactiveMem
      ⟨pInactiveDb, 4⟩).1 rfl rfl
  · exact (c10_inactive_session_asymmetry mInactiveDb 9 pInactiveMem
      ⟨pInactiveDb, 4⟩).2.1 rfl rfl rfl

/-- C5 counterexample: `mOld` has a still-active prior session for
player 7, yet `create_new_game` leaves the history table empty — no
HistoryRecord with outcome `abandoned` (or any outcome) is produced. -/
theorem c5_counterexample :
    lookupKey mOld.active_games 7 = some pOldGame ∧
    pOldGame.game_active = true ∧
    (create_new_game mOld 7 "gil" "easy" 5).1.db.history = [] :=
  ⟨rfl, rfl, rfl⟩

/-- C5 (amended): `create_new_game` writes no HistoryRecord at all; a
cached prior session is marked inactive and committed before the new
session is created. -/
theorem c5_create_no_history (m : GameStateManager) (c : Int) (u d : String)
    (now : Nat) :
    (create_new_game m c u d now).1.db.history = m.db.history ∧
    (∀ old, lookupKey m.active_games c = some old → old.chat_id = c →
      lookupKey (end_existing_game m c now).db.players c =
        some ⟨{ old with game_active := false }, now⟩ ∧
      lookupKey (end_existing_game m c now).active_games c =
        some { old with game_active := false }) := by
  constructor
  · cases hD : DIFFICULTY_LEVELS d with
    | none => simp [create_new_game, hD, end_existing_game_history]
    | some s => simp [create_new_game, hD, save_to_db, end_existing_game_history]
  · intro old h1 h2
    unfold end_existing_game
    rw [h1]
    constructor
    · show lookupKey (upsertKey m.db.players
        ({ old with game_active := false } : PlayerState).chat_id
        ⟨{ old with game_active := false }, now⟩) c = _
      have hc : ({ old with game_active := false } : PlayerState).chat_id = c := h2
      rw [hc]
      exact lookupKey_upsertKey_self _ _ _
    · exact lookupKey_upsertKey_self _ _ _

/-- Witness for C5: ending the prior active session of player 7
commits it inactive, and the new game leaves history untouched. -/
theorem c5_witness :
    (create_new_game mOld 7 "gil" "hard" 11).1.db.history = mOld.db.history ∧
    lookupKey (end_existing_game mOld 7 11).db.players 7 =
      some ⟨{ pOldGame with game_active := false }, 11⟩ := by
  have h := c5_create_no_history mOld 7 "gil" "hard" 11
  exact ⟨h.1, (h.2 pOldGame rfl rfl).1⟩

/-- C4 counterexample: `pHurt` (health 15) takes a COMBAT turn with
draw 10 (damage 20), dies (outcome `died`, `game_active = false`), yet
the history table stays empty — no HistoryRecord with
`survivedDays = currentDay` is written at the moment of death. -/
theorem c4_counterexample :
    (process_turn pHurt "fight" (envOf "COMBAT") dbEmpty 3).outcome = .died ∧
    (process_turn pHurt "fight" (envOf "COMBAT") dbEmpty 3).player.game_active
      = false ∧
    (process_turn pHurt "fight" (envOf "COMBAT") dbEmpty 3).db.history = [] := by
  rw [run_pHurt]
  exact ⟨rfl, rfl, rfl⟩

/-- C4 (amended): after a turn in which health reaches 0, the session is
deactivated and its terminal state committed to the players store; no
HistoryRecord is written at the moment of death (the history table is
only ever appended to by the inactivity sweep). -/
theorem c4_death_deactivates_without_history (p : PlayerState) (desc : String)
    (env : TurnEnv) (db : Database) (now : Nat)
    (h : (process_turn p desc env db now).outcome = .died) :
    (process_turn p desc env db now).player.game_active = false ∧
    (process_turn p desc env db now).player.health ≤ 0 ∧
    (process_turn p desc env db now).db.history = db.history ∧
    lookupKey (process_turn p desc env db now).db.players p.chat_id =
      some ⟨(process_turn p desc env db now).player, now⟩ := by
  rcases process_turn_cases p desc env db now with
    ⟨_, heq⟩ | ⟨_, fb, _, heq⟩ | ⟨_, p1, res, htb, hh, heq⟩ |
    ⟨_, p1, res, _, _, _, heq⟩ | ⟨_, p1, res, _, _, _, heq⟩
  · rw [heq] at h; simp at h
  · rw [heq] at h; simp at h
  · rw [heq]
    have hcid : p1.chat_id = p.chat_id :=
      (tryBlock_preserves p p1 desc res env htb).1
    refine ⟨rfl, hh, by simp [save_to_db], ?_⟩
    show lookupKey (upsertKey _
      ({ p1 with game_active := false } : PlayerState).chat_id _) p.chat_id = _
    have : ({ p1 with game_active := false } : PlayerState).chat_id = p.chat_id :=
      hcid
    rw [this]
    exact lookupKey_upsertKey_self _ _ _
  · rw [heq] at h; simp at h
  · rw [heq] at h; simp at h

/-- Witness for C4 (amended): the dying COMBAT turn of `pHurt`. -/
theorem c4_witness :
    (process_turn pHurt "fight" (envOf "COMBAT") dbEmpty 3).player.game_active
        = false ∧
    (process_turn pHurt "fight" (envOf "COMBAT") dbEmpty 3).db.history =
      dbEmpty.history := by
  have h := c4_death_deactivates_without_history pHurt "fight" (envOf "COMBAT")
    dbEmpty 3 (by rw [run_pHurt])
  exact ⟨h.1, h.2.2.1⟩

/-- C3: every continue-outcome turn advances `currentDay` by exactly 1,
and a turn rejected as invalid (`is_valid = false`) returns the session
entirely unchanged: no depletion, no effects, no day advance, and no
commit to the durable store. -/
theorem c3_continue_advances_invalid_noop (p : PlayerState) (desc : String)
    (env : TurnEnv) (db : Database) (now : Nat) :
    ((process_turn p desc env db now).outcome = .continued →
      (process_turn p desc env db now).player.current_day = p.current_day + 1) ∧
    (p.game_active = true → env.actionFails = false →
      env.analysis.is_valid = false →
      process_turn p desc env db now =
        ⟨p, db, env.analysis.feedback, .invalid⟩) := by
  constructor
  · intro h
    rcases process_turn_cases p desc env db now with
      ⟨_, heq⟩ | ⟨_, fb, _, heq⟩ | ⟨_, p1, res, _, _, heq⟩ |
      ⟨_, p1, res, _, _, _, heq⟩ | ⟨_, p1, res, htb, _, _, heq⟩
    · rw [heq] at h; simp at h
    · rw [heq] at h; simp at h
    · rw [heq] at h; simp at h
    · rw [heq] at h; simp at h
    · rw [heq]
      have hday := (tryBlock_preserves p p1 desc res env htb).2.2.1
      simp [hday]
  · intro hact hAF hV
    exact process_turn_invalid p desc env db now hact
      (tryBlock_invalid p desc env hAF hV)

/-- Witness for C3: a completed CUSTOM turn of `pStd` advances the day
from 5 to 6; an invalid action returns the session unchanged. -/
theorem c3_witness :
    (process_turn pStd "go" (envOf "CUSTOM") dbEmpty 7).player.current_day =
      pStd.current_day + 1 ∧
    process_turn pStd "x" envInvalid dbEmpty 0 =
      ⟨pStd, dbEmpty, "not possible", .invalid⟩ := by
  constructor
  · exact (c3_continue_advances_invalid_noop pStd "go" (envOf "CUSTOM")
      dbEmpty 7).1 (by rw [run_pStd])
  · exact (c3_continue_advances_invalid_noop pStd "x" envInvalid dbEmpty 0).2
      rfl rfl rfl

/-- C2 counterexample: with the Oracle call failing
(`envOracleDown.actionFails = true`) the turn is NOT aborted: the active
session `pStd` has its `currentDay` advanced from 5 to 6 and the
mutated session is committed to the durable store. -/
theorem c2_counterexample :
    pStd.game_active = true ∧ envOracleDown.actionFails = true ∧
    (process_turn pStd "go" envOracleDown dbEmpty 7).player.current_day =
      pStd.current_day + 1 ∧
    lookupKey (process_turn pStd "go" envOracleDown dbEmpty 7).db.players
        pStd.chat_id =
      some ⟨{ pStd with current_day := pStd.current_day + 1 }, 7⟩ := by
  have htb := tryBlock_actionFails pStd "go" envOracleDown rfl
  rw [process_turn_continued pStd pStd
    "An error occurred while processing your action." "go" envOracleDown
    dbEmpty 7 rfl htb (by norm_num [pStd]) (by decide)]
  refine ⟨rfl, rfl, rfl, ?_⟩
  exact lookupKey_upsertKey_self _ _ _

/-- C2 (amended): an Oracle failure does not abort the turn. The
exception is caught; mutations already applied persist (none when
`process_action` fails, the depletion when `generate_outcome` fails);
the session is committed and `currentDay` advances by 1 (given the
session survives and is below the win threshold). -/
theorem c2_oracle_failure_no_abort (p : PlayerState) (desc : String)
    (env : TurnEnv) (db : Database) (now : Nat)
    (hact : p.game_active = true) (hh : 0 < p.health)
    (hd : p.current_day < DAYS_TO_WIN) :
    (env.actionFails = true →
      process_turn p desc env db now =
        ⟨{ p with current_day := p.current_day + 1 },
         save_to_db (save_to_db db p now)
           { p with current_day := p.current_day + 1 } now,
         "An error occurred while processing your action." ++ "\n\n" ++
           (if env.scenarioFails then "You continue your survival journey..."
            else env.nextScenario),
         .continued⟩) ∧
    (∀ prof, env.actionFails = false → env.analysis.is_valid = true →
      env.outcomeFails = true → DIFFICULTY_LEVELS p.difficulty = some prof →
      (process_turn p desc env db now).outcome = .continued ∧
      (process_turn p desc env db now).player.current_day = p.current_day + 1 ∧
      (process_turn p desc env db now).player.health = p.health ∧
      (process_turn p desc env db now).player.food =
        max 0 (p.food -
          prof.resource_depletion_rate * action_intensity env.analysis.action_type) ∧
      (process_turn p desc env db now).player.water =
        max 0 (p.water -
          prof.resource_depletion_rate * action_intensity env.analysis.action_type) ∧
      lookupKey (process_turn p desc env db now).db.players p.chat_id =
        some ⟨(process_turn p desc env db now).player, now⟩) := by
  constructor
  · intro hAF
    exact process_turn_continued p p
      "An error occurred while processing your action." desc env db now hact
      (tryBlock_actionFails p desc env hAF) hh hd
  · intro prof hAF hV hOF hprof
    have htb := tryBlock_outcomeFails p desc env prof hAF hV hprof hOF
    have hdf := depleted_fields p prof env.analysis.action_type
    have hh1 : 0 < (depleted p prof env.analysis.action_type).health := by
      rw [hdf.2.2.1]; exact hh
    have hd1 : (depleted p prof env.analysis.action_type).current_day <
        DAYS_TO_WIN := by
      rw [hdf.2.2.2.1]; exact hd
    rw [process_turn_continued p (depleted p prof env.analysis.action_type)
      "An error occurred while processing your action." desc env db now hact
      htb hh1 hd1]
    refine ⟨rfl, ?_, ?_, ?_, ?_, ?_⟩
    · simp [hdf.2.2.2.1]
    · simpa using hdf.2.2.1
    · simp [depleted]
    · simp [depleted]
    · show lookupKey (upsertKey _
        ({ depleted p prof env.analysis.action_type with
           current_day := (depleted p prof env.analysis.action_type).current_day
             + 1 } : PlayerState).chat_id _) p.chat_id = _
      have hc : ({ depleted p prof env.analysis.action_type with
          current_day := (depleted p prof env.analysis.action_type).current_day
            + 1 } : PlayerState).chat_id = p.chat_id := hdf.1
      rw [hc]
      exact lookupKey_upsertKey_self _ _ _

/-- Witness for C2 (amended): `pStd` with a failing `process_action`
call completes the turn with day 6 committed. -/
theorem c2_witness :
    process_turn pStd "go" envOracleDown dbEmpty 7 =
      ⟨{ pStd with current_day := pStd.current_day + 1 },
       save_to_db (save_to_db dbEmpty pStd 7)
         { pStd with current_day := pStd.current_day + 1 } 7,
       "An error occurred while processing your action." ++ "\n\n" ++ "next",
       .continued⟩ := by
  have h := (c2_oracle_failure_no_abort pStd "go" envOracleDown dbEmpty 7
    rfl (by norm_num [pStd]) (by decide)).1 rfl
  rw [h]
  simp [envOracleDown]

/-- C8: a session at day 29 whose turn continues reaches day 30 still
active; a completed valid turn at day 30 in which the player survives
yields outcome `won`, deactivates the session, and leaves the day at
30. -/
theorem c8_win_at_threshold (p : PlayerState) (desc : String) (env : TurnEnv)
    (db : Database) (now : Nat) :
    (p.current_day = 29 →
      (process_turn p desc env db now).outcome = .continued →
      (process_turn p desc env db now).player.current_day = 30 ∧
      (process_turn p desc env db now).player.game_active = true) ∧
    (p.game_active = true → p.current_day = 30 → env.actionFails = false →
      env.analysis.is_valid = true →
      0 < (process_turn p desc env db now).player.health →
      (process_turn p desc env db now).outcome = .won ∧
      (process_turn p desc env db now).player.game_active = false ∧
      (process_turn p desc env db now).player.current_day = 30) := by
  constructor
  · intro h29 h
    rcases process_turn_cases p desc env db now with
      ⟨_, heq⟩ | ⟨_, fb, _, heq⟩ | ⟨_, p1, res, _, _, heq⟩ |
      ⟨_, p1, res, _, _, _, heq⟩ | ⟨hact, p1, res, htb, _, _, heq⟩
    · rw [heq] at h; simp at h
    · rw [heq] at h; simp at h
    · rw [heq] at h; simp at h
    · rw [heq] at h; simp at h
    · rw [heq]
      have hpre := tryBlock_preserves p p1 desc res env htb
      constructor
      · simp [hpre.2.2.1, h29]
      · simp [hpre.2.2.2, hact]
  · intro hact h30 hAF hV hhp
    rcases process_turn_cases p desc env db now with
      ⟨h0, heq⟩ | ⟨_, fb, htb, heq⟩ | ⟨_, p1, res, htb, hh, heq⟩ |
      ⟨_, p1, res, htb, _, _, heq⟩ | ⟨_, p1, res, htb, _, hd, heq⟩
    · rw [h0] at hact; simp at hact
    · exact absurd htb (tryBlock_not_invalid p desc fb env hAF hV)
    · rw [heq] at hhp
      simp at hhp
      linarith
    · rw [heq]
      have hpre := tryBlock_preserves p p1 desc res env htb
      refine ⟨rfl, rfl, ?_⟩
      simp [hpre.2.2.1, h30]
    · have hday := (tryBlock_preserves p p1 desc res env htb).2.2.1
      rw [hday, h30] at hd
      exact absurd hd (by norm_num [DAYS_TO_WIN])

/-- Witness for C8: `pDay29` continues to day 30 still active; `pDay30`
wins and is deactivated at day 30. -/
theorem c8_witness :
    ((process_turn pDay29 "go" (envOf "CUSTOM") dbEmpty 8).player.current_day
        = 30 ∧
     (process_turn pDay29 "go" (envOf "CUSTOM") dbEmpty 8).player.game_active
        = true) ∧
    ((process_turn pDay30 "go" (envOf "CUSTOM") dbEmpty 9).outcome = .won ∧
     (process_turn pDay30 "go" (envOf "CUSTOM") dbEmpty 9).player.game_active
        = false ∧
     (process_turn pDay30 "go" (envOf "CUSTOM") dbEmpty 9).player.current_day
        = 30) := by
  constructor
  · exact (c8_win_at_threshold pDay29 "go" (envOf "CUSTOM") dbEmpty 8).1 rfl
      (by rw [run_pDay29])
  · exact (c8_win_at_threshold pDay30 "go" (envOf "CUSTOM") dbEmpty 9).2 rfl
      rfl rfl rfl (by rw [run_pDay30]; norm_num [pDay30Dep])

/-- Resource bounds for every `completed` result of the `try` block. -/
theorem tryBlock_bounds (p p1 : PlayerState) (desc res : String) (env : TurnEnv)
    (htb : tryBlock p desc env = .completed p1 res)
    (hh0 : 0 ≤ p.health) (hh1 : p.health ≤ MAX_HEALTH)
    (hf : 0 ≤ p.food) (hw : 0 ≤ p.water)
    (hcd : 0 ≤ env.combatDraw) (hff : 0 ≤ env.foundFood)
    (hfw : 0 ≤ env.foundWater) :
    (0 ≤ p1.health ∧ p1.health ≤ MAX_HEALTH) ∧
    (-1 : ℚ) < p1.food ∧ (-1 : ℚ) < p1.water := by
  have hneg : ∀ x : ℚ, (-1 : ℚ) < max 0 x :=
    fun x => lt_of_lt_of_le (by norm_num) (le_max_left 0 x)
  rcases tryBlock_completed_cases p p1 desc res env htb with h1 | ⟨prof, _, h2 | h3⟩
  · rw [h1]
    exact ⟨⟨hh0, hh1⟩, by linarith, by linarith⟩
  · rw [h2]
    exact ⟨⟨hh0, hh1⟩, hneg _, hneg _⟩
  · rw [h3]
    have hq_f : 0 ≤ (depleted p prof env.analysis.action_type).food :=
      le_max_left 0 _
    have hq_w : 0 ≤ (depleted p prof env.analysis.action_type).water :=
      le_max_left 0 _
    have hae := apply_effects_bounds (depleted p prof env.analysis.action_type)
      env.analysis.action_type env hh0 hh1 hq_f hq_w hcd hff hfw
    have hui := use_items_health_bounds desc
      (apply_effects (depleted p prof env.analysis.action_type)
        env.analysis.action_type env).health
      (apply_effects (depleted p prof env.analysis.action_type)
        env.analysis.action_type env).inventory hae.1.1 hae.1.2
    exact ⟨⟨hui.1, hui.2⟩, hae.2.1, hae.2.2⟩

/-- C1 (amended): after any completed `process_turn`, health stays
within `[0, MAX_HEALTH]`, but food and water are only bounded below by
`-1` (strictly): the depletion step clamps them at 0, while the REST
consumption of one unit each is NOT clamped and can leave them negative
when fractional depletion had left them strictly between 0 and 1. -/
theorem c1_resource_bounds (p : PlayerState) (desc : String) (env : TurnEnv)
    (db : Database) (now : Nat)
    (hh0 : 0 ≤ p.health) (hh1 : p.health ≤ MAX_HEALTH)
    (hf : 0 ≤ p.food) (hw : 0 ≤ p.water)
    (hcd : 0 ≤ env.combatDraw) (hff : 0 ≤ env.foundFood)
    (hfw : 0 ≤ env.foundWater) :
    0 ≤ (process_turn p desc env db now).player.health ∧
    (process_turn p desc env db now).player.health ≤ MAX_HEALTH ∧
    (-1 : ℚ) < (process_turn p desc env db now).player.food ∧
    (-1 : ℚ) < (process_turn p desc env db now).player.water := by
  rcases process_turn_cases p desc env db now with
    ⟨_, heq⟩ | ⟨_, fb, _, heq⟩ | ⟨_, p1, res, htb, _, heq⟩ |
    ⟨_, p1, res, htb, _, _, heq⟩ | ⟨_, p1, res, htb, _, _, heq⟩ <;> rw [heq]
  · exact ⟨hh0, hh1, by linarith, by linarith⟩
  · exact ⟨hh0, hh1, by linarith, by linarith⟩
  all_goals
    have hb := tryBlock_bounds p p1 desc res env htb hh0 hh1 hf hw hcd hff hfw
  all_goals
    exact ⟨hb.1.1, hb.1.2, hb.2.1, hb.2.2⟩

/-- C1 counterexample: `pFrac` (easy, food = water = 1/2) takes a valid
REST turn; depletion leaves food at 1/4 > 0, the rest effect then
subtracts a full unit without clamping, and the session ends the turn
with food = −3/4 < 0. -/
theorem c1_counterexample :
    pFrac.food = 1/2 ∧
    (process_turn pFrac "rest" (envOf "REST") dbEmpty 2).player.food < 0 := by
  refine ⟨rfl, ?_⟩
  rw [run_pFrac]
  norm_num [pFracPost]

/-- Witness for C1 (amended): the bounds hold for the CUSTOM turn of
`pStd`. -/
theorem c1_witness :
    0 ≤ (process_turn pStd "go" (envOf "CUSTOM") dbEmpty 7).player.health ∧
    (process_turn pStd "go" (envOf "CUSTOM") dbEmpty 7).player.health ≤
      MAX_HEALTH ∧
    (-1 : ℚ) < (process_turn pStd "go" (envOf "CUSTOM") dbEmpty 7).player.food ∧
    (-1 : ℚ) < (process_turn pStd "go" (envOf "CUSTOM") dbEmpty 7).player.water :=
  c1_resource_bounds pStd "go" (envOf "CUSTOM") dbEmpty 7
    (by norm_num [pStd]) (by norm_num [pStd, MAX_HEALTH])
    (by norm_num [pStd]) (by norm_num [pStd])
    (by norm_num [envOf]) (by norm_num [envOf]) (by norm_num [envOf])

/-- C7 counterexample: `pNoFood` (food = 0, water = 3) takes a REST
turn through `process_turn`; the turn is NOT a zero-mutation no-op —
the depletion step still reduces water (3 → 11/4). -/
theorem c7_counterexample :
    pNoFood.food = 0 ∧
    (process_turn pNoFood "rest" (envOf "REST") dbEmpty 2).player.water ≠
      pNoFood.water := by
  refine ⟨rfl, ?_⟩
  rw [run_pNoFood]
  norm_num [pNoFoodPost, pNoFood]

/-- C7 (amended): the standalone helper `GameAction.rest` behaves as
the claim describes (no-op with "ineffective" feedback when food or
water is 0; otherwise a heal capped at `MAX_HEALTH` consuming exactly
one unit of each). A REST turn through `process_turn`, however, first
applies depletion to both resources; the rest effect (heal capped at
`MAX_HEALTH`, one unit of each consumed) runs only if both depleted
resources are still positive, and when one of them is 0 the turn still
proceeds (with the depletion retained) and returns the oracle outcome,
not "ineffective" feedback. -/
theorem c7_rest_semantics :
    (∀ p : PlayerState, p.food ≤ 0 ∨ p.water ≤ 0 →
      GameAction_rest p =
        (p, "You need both food and water to rest effectively.")) ∧
    (∀ p : PlayerState, 0 < p.food → 0 < p.water →
      (GameAction_rest p).1.health = min (p.health + REST_RECOVERY) MAX_HEALTH ∧
      (GameAction_rest p).1.health ≤ MAX_HEALTH ∧
      (GameAction_rest p).1.food = p.food - 1 ∧
      (GameAction_rest p).1.water = p.water - 1) ∧
    (∀ (p : PlayerState) (desc : String) (env : TurnEnv)
        (prof : DifficultyProfile),
      env.actionFails = false → env.analysis.is_valid = true →
      env.outcomeFails = false → env.analysis.action_type = "REST" →
      DIFFICULTY_LEVELS p.difficulty = some prof →
      strContains (lowerStr desc) "use" = false →
      ((depleted p prof "REST").food ≤ 0 ∨ (depleted p prof "REST").water ≤ 0 →
        tryBlock p desc env =
          .completed (depleted p prof "REST") env.outcomeText) ∧
      (0 < (depleted p prof "REST").food → 0 < (depleted p prof "REST").water →
        tryBlock p desc env =
          .completed
            { depleted p prof "REST" with
              health := min ((depleted p prof "REST").health +
                min 20 (MAX_HEALTH - (depleted p prof "REST").health))
                MAX_HEALTH,
              food := (depleted p prof "REST").food - 1,
              water := (depleted p prof "REST").water - 1 }
            env.outcomeText)) := by
  refine ⟨?_, ?_, ?_⟩
  · intro p hp
    unfold GameAction_rest
    rw [if_pos hp]
  · intro p hf hw
    unfold GameAction_rest
    rw [if_neg (by push_neg; exact ⟨hf, hw⟩)]
    exact ⟨rfl, min_le_right _ _, rfl, rfl⟩
  · intro p desc env prof hAF hV hOF ht hprof hd
    constructor
    · intro hle
      rw [tryBlock_success p desc env prof hAF hV hprof hOF,
        afterEffects_nouse _ _ _ _ hd, ht, apply_effects_rest]
      rw [if_neg (by rintro ⟨hx, hy⟩; rcases hle with h | h <;> linarith)]
    · intro hfd hwd
      rw [tryBlock_success p desc env prof hAF hV hprof hOF,
        afterEffects_nouse _ _ _ _ hd, ht, apply_effects_rest]
      rw [if_pos ⟨hfd, hwd⟩]

/-- Witness for C7 (amended): `GameAction_rest` on a session without
food is the ineffective no-op; on `pStd` it consumes one unit of each
and stays within the cap; the `process_turn` REST path of `pFrac`
applies the un-clamped consumption after depletion. -/
theorem c7_witness :
    GameAction_rest pNoFood =
      (pNoFood, "You need both food and water to rest effectively.") ∧
    (GameAction_rest pStd).1.food = pStd.food - 1 ∧
    (GameAction_rest pStd).1.health ≤ MAX_HEALTH ∧
    tryBlock pFrac "rest" (envOf "REST") =
      .completed pFracPost (envOf "REST").outcomeText := by
  have h := c7_rest_semantics
  refine ⟨h.1 pNoFood (Or.inl (by norm_num [pNoFood])), ?_, ?_, ?_⟩
  · exact (h.2.1 pStd (by norm_num [pStd]) (by norm_num [pStd])).2.2.1
  · exact (h.2.1 pStd (by norm_num [pStd]) (by norm_num [pStd])).2.1
  · have hc := (h.2.2 pFrac "rest" (envOf "REST") profEasy rfl rfl rfl rfl
      (by simp [DIFFICULTY_LEVELS, pFrac, profEasy]) (by decide)).2
      (by simp only [depleted, pFrac, profEasy, action_intensity,
            String.reduceEq, if_false]
          norm_num [max_def])
      (by simp only [depleted, pFrac, profEasy, action_intensity,
            String.reduceEq, if_false]
          norm_num [max_def])
    rw [hc]
    have : ({ depleted pFrac profEasy "REST" with
        health := min ((depleted pFrac profEasy "REST").health +
          min 20 (MAX_HEALTH - (depleted pFrac profEasy "REST").health))
          MAX_HEALTH,
        food := (depleted pFrac profEasy "REST").food - 1,
        water := (depleted pFrac profEasy "REST").water - 1 } : PlayerState) =
        pFracPost := by
      simp only [depleted, pFrac, pFracPost, profEasy, action_intensity,
        String.reduceEq, if_false, MAX_HEALTH]
      norm_num [max_def, min_def]
    rw [this]

/-- `check_rate_limit` with no counter row: reset to 1, allowed. -/
theorem check_fresh (db : Database) (c : Int) (now ws : Nat)
    (hnone : lookupKey db.rate_limits c = none) :
    check_rate_limit db c now ws =
      (true, MAX_MESSAGES_PER_DAY - 1,
       { db with rate_limits := upsertKey db.rate_limits c ⟨1, now⟩ }) := by
  simp only [check_rate_limit, hnone]

/-- `check_rate_limit` with a stale counter row: reset to 1, allowed. -/
theorem check_stale (db : Database) (c : Int) (now ws : Nat)
    (row : RateLimitRow) (hrow : lookupKey db.rate_limits c = some row)
    (hstale : row.last_reset < ws) :
    check_rate_limit db c now ws =
      (true, MAX_MESSAGES_PER_DAY - 1,
       { db with rate_limits := upsertKey db.rate_limits c ⟨1, now⟩ }) := by
  simp only [check_rate_limit, hrow]
  rw [if_pos hstale]

/-- `check_rate_limit` with a current-window counter row: deny without
mutation at the cap, otherwise increment. -/
theorem check_with_row (db : Database) (c : Int) (now ws : Nat)
    (row : RateLimitRow) (hrow : lookupKey db.rate_limits c = some row)
    (hfresh : ¬ row.last_reset < ws) :
    check_rate_limit db c now ws =
      (if row.message_count ≥ MAX_MESSAGES_PER_DAY then (false, 0, db)
       else (true, MAX_MESSAGES_PER_DAY - (row.message_count + 1),
         { db with rate_limits := upsertKey db.rate_limits c ⟨row.message_count + 1, row.last_reset⟩ })) := by
  simp only [check_rate_limit, hrow]
  rw [if_neg hfresh]

/-- After `n ≥ 1` checks inside one window, starting from no counter or
a stale one, the stored counter is `min n MAX` with `last_reset = now`. -/
theorem checkIter_state (db : Database) (c : Int) (now ws : Nat)
    (hstart : lookupKey db.rate_limits c = none ∨
      ∃ row, lookupKey db.rate_limits c = some row ∧ row.last_reset < ws)
    (hws : ws ≤ now) :
    ∀ n : Nat, 1 ≤ n →
      lookupKey (checkIter db c now ws n).rate_limits c =
        some ⟨min (n : Int) MAX_MESSAGES_PER_DAY, now⟩ := by
  intro n
  induction n with
  | zero => intro h; exact absurd h (by omega)
  | succ k ih =>
      intro _
      by_cases hk : 1 ≤ k
      · have hrow := ih hk
        show lookupKey
          ((check_rate_limit (checkIter db c now ws k) c now ws).2.2).rate_limits
          c = _
        rw [check_with_row _ _ _ _ _ hrow (by show ¬ now < ws; omega)]
        by_cases h50 : MAX_MESSAGES_PER_DAY ≤ min ((k : Nat) : Int) MAX_MESSAGES_PER_DAY
        · rw [if_pos h50]
          rw [hrow]
          simp only [Option.some.injEq, RateLimitRow.mk.injEq]
          refine ⟨?_, trivial⟩
          simp only [MAX_MESSAGES_PER_DAY] at h50 ⊢
          push_cast
          omega
        · rw [if_neg h50]
          show lookupKey (upsertKey _ c _) c = _
          rw [lookupKey_upsertKey_self]
          simp only [Option.some.injEq, RateLimitRow.mk.injEq]
          refine ⟨?_, trivial⟩
          simp only [MAX_MESSAGES_PER_DAY] at h50 ⊢
          push_cast
          omega
      · have hk0 : k = 0 := by omega
        subst hk0
        show lookupKey
          ((check_rate_limit (checkIter db c now ws 0) c now ws).2.2).rate_limits
          c = _
        rcases hstart with hnone | ⟨row, hrow, hstale⟩
        · rw [show checkIter db c now ws 0 = db from rfl, check_fresh _ _ _ _ hnone]
          show lookupKey (upsertKey _ c _) c = _
          rw [lookupKey_upsertKey_self]
          norm_num [MAX_MESSAGES_PER_DAY]
        · rw [show checkIter db c now ws 0 = db from rfl,
            check_stale _ _ _ _ _ hrow hstale]
          show lookupKey (upsertKey _ c _) c = _
          rw [lookupKey_upsertKey_self]
          norm_num [MAX_MESSAGES_PER_DAY]

/-- C6: starting a window with no counter (or a stale one), the first
MAX checks are allowed with `remaining` decreasing from MAX−1 to 0
(call k returns MAX−k); every later check is denied with
`remaining = 0` and does not mutate the store; the first check after
the window boundary is again allowed with `remaining = MAX−1`. -/
theorem c6_rate_limiter_window (db : Database) (c : Int) (now ws : Nat)
    (k : Nat)
    (hstart : lookupKey db.rate_limits c = none ∨
      ∃ row, lookupKey db.rate_limits c = some row ∧ row.last_reset < ws)
    (hws : ws ≤ now) (hk : 1 ≤ k) :
    (k ≤ 50 →
      (check_rate_limit (checkIter db c now ws (k - 1)) c now ws).1 = true ∧
      (check_rate_limit (checkIter db c now ws (k - 1)) c now ws).2.1 =
        MAX_MESSAGES_PER_DAY - (k : Int)) ∧
    (51 ≤ k →
      (check_rate_limit (checkIter db c now ws (k - 1)) c now ws).1 = false ∧
      (check_rate_limit (checkIter db c now ws (k - 1)) c now ws).2.1 = 0 ∧
      (check_rate_limit (checkIter db c now ws (k - 1)) c now ws).2.2 =
        checkIter db c now ws (k - 1)) ∧
    (∀ now2 ws2 : Nat, now < ws2 →
      (check_rate_limit (checkIter db c now ws k) c now2 ws2).1 = true ∧
      (check_rate_limit (checkIter db c now ws k) c now2 ws2).2.1 =
        MAX_MESSAGES_PER_DAY - 1) := by
  obtain ⟨j, rfl⟩ : ∃ j, k = j + 1 := ⟨k - 1, by omega⟩
  simp only [Nat.add_sub_cancel]
  refine ⟨?_, ?_, ?_⟩
  · intro hk50
    by_cases hj : 1 ≤ j
    · have hrow := checkIter_state db c now ws hstart hws j hj
      rw [check_with_row _ _ _ _ _ hrow (by show ¬ now < ws; omega)]
      rw [if_neg (by
        show ¬ MAX_MESSAGES_PER_DAY ≤ min ((j : Nat) : Int) MAX_MESSAGES_PER_DAY
        simp only [MAX_MESSAGES_PER_DAY]
        omega)]
      refine ⟨rfl, ?_⟩
      show MAX_MESSAGES_PER_DAY - (min ((j : Nat) : Int) MAX_MESSAGES_PER_DAY + 1)
        = MAX_MESSAGES_PER_DAY - ((j + 1 : Nat) : Int)
      simp only [MAX_MESSAGES_PER_DAY]
      push_cast
      omega
    · have hj0 : j = 0 := by omega
      subst hj0
      show (check_rate_limit (checkIter db c now ws 0) c now ws).1 = true ∧ _
      rcases hstart with hnone | ⟨row, hrow, hstale⟩
      · rw [show checkIter db c now ws 0 = db from rfl, check_fresh _ _ _ _ hnone]
        exact ⟨rfl, by norm_num [MAX_MESSAGES_PER_DAY]⟩
      · rw [show checkIter db c now ws 0 = db from rfl,
          check_stale _ _ _ _ _ hrow hstale]
        exact ⟨rfl, by norm_num [MAX_MESSAGES_PER_DAY]⟩
  · intro hk51
    have hrow := checkIter_state db c now ws hstart hws j (by omega)
    rw [check_with_row _ _ _ _ _ hrow (by show ¬ now < ws; omega)]
    rw [if_pos (by
      show MAX_MESSAGES_PER_DAY ≤ min ((j : Nat) : Int) MAX_MESSAGES_PER_DAY
      simp only [MAX_MESSAGES_PER_DAY]
      omega)]
    exact ⟨rfl, rfl, rfl⟩
  · intro now2 ws2 hb
    have hrow := checkIter_state db c now ws hstart hws (j + 1) (by omega)
    rw [check_stale _ _ _ _ _ hrow (by show now < ws2; omega)]
    exact ⟨rfl, rfl⟩

/-- Witness for C6: the very first check of player 9 in an empty store
is allowed with `remaining = MAX − 1`. -/
theorem c6_witness :
    (check_rate_limit dbEmpty 9 5 3).1 = true ∧
    (check_rate_limit dbEmpty 9 5 3).2.1 = MAX_MESSAGES_PER_DAY - 1 := by
  have h := (c6_rate_limiter_window dbEmpty 9 5 3 1 (Or.inl rfl) (by omega)
    (by omega)).1 (by omega)
  rw [show checkIter dbEmpty 9 5 3 (1 - 1) = dbEmpty from rfl] at h
  exact ⟨h.1, by rw [h.2]; norm_num⟩

end DeadText
